import Mathlib

/-!
Verification of the chasten check-evaluation and results-aggregation engine
against its specification.  The Python sources `chasten/main.py` (the
`analyze` and `integrate` commands) and `chasten/util.py` are embedded
shallowly below; helper modules that are imported by `main.py` but whose
sources are not part of this repository snapshot (`chasten.checks`,
`chasten.process`, `chasten.results`, `chasten.constants`, and the
`total_amount_passed` helper) are modelled from the specification, each
marked by a doc comment starting with `Modelled from the spec:`.
-/

namespace Chasten

/-! ## Constants (`chasten/constants.py` markers) -/

/-- Modelled from the spec: `constants.markers.Newline`, the separator used by
`join_and_preserve` ("joined by newlines"); the module `chasten/constants.py`
is not in the sources. -/
def Newline : String := "\n"

/-- Modelled from the spec: `constants.markers.Space`, the single character
stripped from the front of a matched line; the module `chasten/constants.py`
is not in the sources. -/
def Space : Char := ' '

/-- Modelled from the spec: `constants.markers.Code_Context`, the context
window size ("default window size = 2"); the module `chasten/constants.py`
is not in the sources. -/
def Code_Context : Nat := 2

/-! ## `chasten/util.py` -/

/-- Python `util.default_chasten_semver`: the fallback version string. -/
def default_chasten_semver : String := "0.0.0"

/-- Outcome of the `importlib.metadata.version` lookup performed by
`get_chasten_version`: either the installed package's version string, or the
`PackageNotFoundError` failure that the function catches. -/
inductive MetadataLookup where
  | found (version : String)
  | packageNotFound
deriving DecidableEq

/-- Python `util.get_chasten_version`: returns the version found by the metadata
lookup, or `default_chasten_semver` when the lookup raises
`PackageNotFoundError`.  The embedding takes the lookup outcome as input. -/
def get_chasten_version (lookup : MetadataLookup) : String :=
  match lookup with
  | .found v => v
  | .packageNotFound => default_chasten_semver

/-- Python `util.join_and_preserve(data, start, end)`:
`Newline.join(data[start:end])`.  For non-negative `start`/`stop` the Python
slice `data[start:stop]` is the elements at indices `start ≤ i < stop`,
clamped to the list, which is `(data.drop start).take (stop - start)` with
truncated subtraction. -/
def join_and_preserve (data : List String) (start stop : Nat) : String :=
  String.intercalate Newline ((data.drop start).take (stop - start))

/-- Python's `str.lstrip(c)` for a single character `c`: remove every leading
occurrence of that character (used at main.py line 594 with `Space`). -/
def lstrip (s : String) (c : Char) : String :=
  String.mk (s.toList.dropWhile (fun x => x = c))

/-! ## `chasten/checks.py` (module not in the sources) -/

/-- Modelled from the spec: `checks.is_checkable(min, max)` — "a check is
enforceable iff at least one of min/max is a concrete value (non-absent)";
the module `chasten/checks.py` is not in the sources. -/
def is_checkable (mn mx : Option Nat) : Bool :=
  mn.isSome || mx.isSome

/-- Modelled from the spec: `checks.check_match_count(count, min, max)` — "an
enforceable check passes iff `min <= match_count <= max` where an absent
bound is treated as unbounded on that side (absent min = 0, absent max =
+infinity)"; the module `chasten/checks.py` is not in the sources. -/
def check_match_count (count : Nat) (mn mx : Option Nat) : Bool :=
  decide (mn.getD 0 ≤ count) &&
    (match mx with
     | none => true
     | some M => decide (count ≤ M))

/-! ## Raw matches from the external query engine (`pyastgrep`) -/

/-- Position carried by a raw `pyastgrep` match: a 1-based line number and a
0-based column offset. -/
structure RawPosition where
  lineno : Nat
  col_offset : Nat
deriving DecidableEq

/-- A raw `pyastgrep.Match`: the originating file, the file's full line
sequence, and the position of the located occurrence. -/
structure RawMatch where
  filename : String
  file_lines : List String
  position : RawPosition
deriving DecidableEq

/-- One record of the query engine's output stream: either a real match or a
non-match sentinel record (e.g. a per-file completion marker). -/
inductive SearchRecord where
  | found (m : RawMatch)
  | marker (info : String)
deriving DecidableEq

/-- Modelled from the spec: `process.filter_matches(list, pyastgrepsearch.Match)`
— "filters the input to records that are real matches (discarding
sentinel/progress records)"; the module `chasten/process.py` is not in the
sources.  The Python call returns a pair whose second component the call
site discards; only the list of real matches is modelled. -/
def filter_matches : List SearchRecord → List RawMatch
  | [] => []
  | .found m :: rest => m :: filter_matches rest
  | .marker _ :: rest => filter_matches rest

/-! ## `chasten/process.py` — MatchOrganizer (module not in the sources) -/

/-- Insert a filename into the first-occurrence-ordered key list of the
grouping dictionary (Python dicts keep insertion order). -/
def insertName (acc : List String) (f : String) : List String :=
  if f ∈ acc then acc else acc ++ [f]

/-- The filenames of a match list, in order of first occurrence: the key
order of the grouping dictionary. -/
def fileOrder (ms : List RawMatch) : List String :=
  ms.foldl (fun acc m => insertName acc m.filename) []

/-- Modelled from the spec: `process.organize_matches` — "groups by filename,
preserving the relative order matches were discovered within each file";
the module `chasten/process.py` is not in the sources.  The dictionary is
modelled as an association list keyed by filename in first-occurrence
order, each key mapped to the subsequence of matches from that file. -/
def organize_matches (ms : List RawMatch) : List (String × List RawMatch) :=
  (fileOrder ms).map (fun f => (f, ms.filter (fun m => m.filename = f)))

/-! ## `chasten/results.py` — ResultsModel (module not in the sources) -/

/-- Modelled from the spec: `results.Match` — "one located occurrence: line
number (1-based), column offset (0-based), the matched line's text ..., and
a multi-line context window ... joined with newlines"; the module
`chasten/results.py` is not in the sources.  Field values are computed by
`analyze` in `main.py` (embedded in `buildMatch` below). -/
structure Match where
  lineno : Nat
  coloffset : Nat
  linematch : String
  linematch_context : String
deriving DecidableEq

/-- Modelled from the spec: `results.Check` — "one configured rule: id, human
name, description, optional min/max match-count thresholds, the pattern
expression, computed pass/fail boolean, and an ordered sequence of Matches
found for one specific Source"; the module `chasten/results.py` is not in
the sources.  The Python field `matches` is spelled `matchlist` here
because `matches` is reserved in Lean; the private `_matches` debugging
list of raw matches is not modelled. -/
structure Check where
  id : String
  name : String
  description : String
  min : Option Nat
  max : Option Nat
  pattern : String
  passed : Bool
  matchlist : List Match
deriving DecidableEq

/-- Modelled from the spec: `results.Source` — "one file under analysis:
filename ... and the list of Checks"; the module `chasten/results.py` is
not in the sources.  In `main.py` each Source receives at most one Check
(`current_result_source.check = current_check_save`), so the field is one
optional Check; the private `_filelines` debugging field is not modelled. -/
structure Source where
  filename : String
  check : Option Check
deriving DecidableEq

/-- Modelled from the spec: `results.CheckCriterion` — "a triple (attribute
name, value, confidence level) used to filter which checks run"; the module
`chasten/results.py` is not in the sources.  The Python field `attribute`
is spelled `attr` here because `attribute` is reserved in Lean. -/
structure CheckCriterion where
  attr : String
  value : String
  confidence : Nat
deriving DecidableEq

/-- Modelled from the spec: `results.Configuration` — the immutable record of
one analysis run, with the fields supplied at main.py lines 361-370; the
module `chasten/results.py` is not in the sources. -/
structure Configuration where
  chastenversion : String
  projectname : String
  configdirectory : String
  searchpath : String
  debuglevel : String
  debugdestination : String
  checkinclude : CheckCriterion
  checkexclude : CheckCriterion
deriving DecidableEq

/-- Modelled from the spec: `results.Chasten`, the top-level results document
— "owns one Configuration and an ordered sequence of Sources"; the module
`chasten/results.py` is not in the sources. -/
structure ChastenDoc where
  configuration : Configuration
  sources : List Source
deriving DecidableEq

/-! ## The configured checks consumed by `analyze` -/

/-- One entry of the configured check list extracted from the checks file
(main.py lines 453-468): id, name, description, the optional min/max
thresholds returned by `checks.extract_min_max`, and the pattern. -/
structure CheckSpec where
  id : String
  name : String
  description : String
  min : Option Nat
  max : Option Nat
  pattern : String
deriving DecidableEq

/-! ## The `analyze` command (`chasten/main.py`) -/

/-- Embedding of the `results.Match` construction of `analyze` (main.py lines
578-605): the 1-based line number, the 0-based column offset, the matched
line (index `lineno - 1`) with leading spaces stripped, and the context
window `join_and_preserve(file_lines, max(0, lineno - Code_Context),
lineno + Code_Context)`.  Python's `max(0, lineno - Code_Context)` is the
truncated subtraction `lineno - Code_Context` on `Nat`; Python's raising
list indexing is embedded as `getD` with default `""` and claims about the
matched line carry an in-range hypothesis. -/
def buildMatch (current_match : RawMatch) : Match :=
  let position_end := current_match.position.lineno
  { lineno := position_end
  , coloffset := current_match.position.col_offset
  , linematch := lstrip (current_match.file_lines.getD (position_end - 1) "") Space
  , linematch_context := join_and_preserve current_match.file_lines
      (position_end - Code_Context) (position_end + Code_Context) }

/-- Embedding of the `results.Check` construction of `analyze` (main.py lines
550-612) for one file's match group: all configured fields are copied from
the check specification, `passed` receives the already-computed global
verdict, and the match list holds one built Match per raw match. -/
def buildCheck (c : CheckSpec) (check_status : Bool) (matches_list : List RawMatch) :
    Check :=
  { id := c.id
  , name := c.name
  , description := c.description
  , min := c.min
  , max := c.max
  , pattern := c.pattern
  , passed := check_status
  , matchlist := matches_list.map buildMatch }

/-- Embedding of one iteration of the per-check loop of `analyze`
(main.py lines 453-616): materialize and filter the query engine's stream
(lines 486-491), organize the matches per file (line 494), evaluate the
check once on the total match count across all files (lines 496-507), and
build one Source per matched file, each wrapping one Check whose `passed`
field is that single global verdict (lines 548-614).  Returns the sources
appended to `chasten_results_save.sources`, the verdict `check_status`,
and the value appended to `check_status_list` (`none` for a
non-enforceable check, which appends nothing — lines 497-507).  When the
check has no matches, the placeholder Source of lines 533-539 is created
but the only append into the document (line 614) sits inside the per-file
loop, so nothing is appended: the returned source list is empty. -/
def processCheck (c : CheckSpec) (records : List SearchRecord) :
    List Source × Bool × Option Bool :=
  let match_generator_list := filter_matches records
  let match_dict := organize_matches match_generator_list
  let check_status :=
    if is_checkable c.min c.max then
      check_match_count match_generator_list.length c.min c.max
    else true
  let status_appended : Option Bool :=
    if is_checkable c.min c.max then
      some (check_match_count match_generator_list.length c.min c.max)
    else none
  let sources := match_dict.map
    (fun p => { filename := p.1, check := some (buildCheck c check_status p.2) })
  (sources, check_status, status_appended)

/-- Embedding of the whole per-check loop of `analyze` (main.py lines
446-616): the configured checks are processed in list order, each check's
produced sources are appended to the document's source list, and — only
for enforceable checks — the verdict is appended to `check_status_list`. -/
def analyzeRun : List CheckSpec → (CheckSpec → List SearchRecord) →
    List Source × List Bool
  | [], _ => ([], [])
  | c :: rest, query =>
    let r := processCheck c (query c)
    let tail := analyzeRun rest query
    (r.1 ++ tail.1, (match r.2.2 with | some b => [b] | none => []) ++ tail.2)

/-- Modelled from the spec: `util.total_amount_passed(check_status_list)`,
called at main.py line 618 but not defined in the sources — the run summary
"`{ passed_count: int, total_count: int, passed_percentage: float }`
derived from the pass/fail accumulator".  The float percentage is modelled
as a rational. -/
def total_amount_passed (l : List Bool) : Nat × Nat × ℚ :=
  (l.count true, l.length, ((l.count true : Nat) : ℚ) * 100 / ((l.length : Nat) : ℚ))

/-! ## The `integrate` command — ResultsMerger (helpers not in the sources) -/

/-- A default configuration, used only for the merge of an empty batch. -/
def emptyConfiguration : Configuration :=
  { chastenversion := default_chasten_semver
  , projectname := ""
  , configdirectory := ""
  , searchpath := ""
  , debuglevel := "ERROR"
  , debugdestination := "CONSOLE"
  , checkinclude := { attr := "", value := "", confidence := 0 }
  , checkexclude := { attr := "", value := "", confidence := 0 } }

/-- Modelled from the spec: `process.combine_dicts` (called by `integrate` at
main.py line 719) — "a structural, order-preserving merge of N parsed
JSON-like documents into one combined document whose shape matches a
single run's document but whose Source list is the concatenation of all
inputs' Source lists in input order", with no deduplication; the module
`chasten/process.py` is not in the sources. -/
def combine_dicts : List ChastenDoc → ChastenDoc
  | [] => { configuration := emptyConfiguration, sources := [] }
  | d :: rest =>
    rest.foldl (fun acc x => { acc with sources := acc.sources ++ x.sources }) d

/-! ## Concrete inputs used by witnesses and counterexamples -/

/-- A match from file `a.py` at line 1. -/
def mA1 : RawMatch := ⟨"a.py", ["x = 1", "x = 2"], ⟨1, 0⟩⟩

/-- A second match from file `a.py`, at line 2. -/
def mA2 : RawMatch := ⟨"a.py", ["x = 1", "x = 2"], ⟨2, 0⟩⟩

/-- A match from file `b.py`. -/
def mB1 : RawMatch := ⟨"b.py", ["y = 2"], ⟨1, 0⟩⟩

/-- A stream interleaving matches of two files with a sentinel record. -/
def rs7 : List SearchRecord :=
  [.found mA1, .marker "done", .found mB1, .found mA2]

/-- A 20-line file whose line 10 starts with a tab. -/
def file20 : List String :=
  ["line1", "line2", "line3", "line4", "line5", "line6", "line7", "line8",
   "line9", "\tx = 10", "line11", "line12", "line13", "line14", "line15",
   "line16", "line17", "line18", "line19", "line20"]

/-- A raw match at 1-based line 10 of the 20-line file. -/
def c3match : RawMatch := ⟨"f.py", file20, ⟨10, 4⟩⟩

/-- An enforceable check specification with min=1 and max=5. -/
def c2ex : CheckSpec := ⟨"C2", "global", "global threshold", some 1, some 5, "//w"⟩

/-- The Source produced by `c2ex` on `rs7` for file `a.py`. -/
def sC2 : Source := ⟨"a.py", some (buildCheck c2ex true [mA1, mA2])⟩

/-- An enforceable check specification requiring at least one match. -/
def c4ex : CheckSpec := ⟨"C4", "needs-one", "requires a match", some 1, none, "//y"⟩

/-- A non-enforceable (informational) check specification. -/
def c6ex : CheckSpec := ⟨"C6", "informational", "no thresholds", none, none, "//z"⟩

/-! ## Theorems: `chasten/util.py` claims -/

/-- Claim C9: `get_chasten_version` never raises: when the package metadata
lookup fails with a package-not-found error it returns the default version
string "0.0.0", and otherwise it returns the installed package's version
string. -/
theorem get_chasten_version_total :
    get_chasten_version MetadataLookup.packageNotFound = "0.0.0" ∧
      ∀ v : String, get_chasten_version (MetadataLookup.found v) = v := by
  refine ⟨rfl, fun v => rfl⟩

/-- Claim C10: `join_and_preserve data start stop` is total on every list of
strings and all non-negative `start`, `stop`: it returns exactly the lines
at indices `start ≤ i < stop` (the first `stop` lines with the first
`start` discarded) joined by newlines; when `stop` exceeds the list length
it clamps to the end of the list, and when `start ≥ stop` it returns the
empty string, never an index error. -/
theorem join_and_preserve_total (data : List String) (start stop : Nat) :
    join_and_preserve data start stop =
        String.intercalate "\n" ((data.take stop).drop start) ∧
      (data.length ≤ stop →
        join_and_preserve data start stop =
          join_and_preserve data start data.length) ∧
      (stop ≤ start → join_and_preserve data start stop = "") := by
  have hlen : (data.drop start).length = data.length - start := List.length_drop start data
  refine ⟨?_, ?_, ?_⟩
  · simp only [join_and_preserve, Newline, List.drop_take]
  · intro h
    have h1 : (data.drop start).take (stop - start) = data.drop start :=
      List.take_of_length_le (by rw [hlen]; omega)
    have h2 : (data.drop start).take (data.length - start) = data.drop start :=
      List.take_of_length_le (by rw [hlen])
    rw [join_and_preserve, join_and_preserve, h1, h2]
  · intro h
    rw [join_and_preserve, Nat.sub_eq_zero_of_le h]
    rfl

/-- Witness for claim C10 at concrete inputs: an in-range slice, an
overlong `stop`, and `start ≥ stop`. -/
theorem join_and_preserve_total_witness :
    join_and_preserve ["a", "b", "c"] 1 3 =
        String.intercalate "\n" ((["a", "b", "c"].take 3).drop 1) ∧
      join_and_preserve ["a", "b", "c"] 1 7 = join_and_preserve ["a", "b", "c"] 1 3 ∧
      join_and_preserve ["a", "b", "c"] 2 1 = "" := by
  refine ⟨(join_and_preserve_total ["a", "b", "c"] 1 3).1,
    ?_, (join_and_preserve_total ["a", "b", "c"] 2 1).2.2 (by decide)⟩
  exact (join_and_preserve_total ["a", "b", "c"] 1 7).2.1 (by decide)

/-! ## Theorems: CheckEvaluator (claims C1, C6) -/

/-- Claim C1: for every enforceable check (at least one of min/max present)
and every match count, the check passes iff `min ≤ match_count ≤ max`, an
absent min meaning 0 and an absent max meaning unbounded; in particular
with min=2 and max=5, counts 2 and 5 pass while counts 0 and 6 fail. -/
theorem check_match_count_iff (count : Nat) (mn mx : Option Nat)
    (h : is_checkable mn mx = true) :
    (check_match_count count mn mx = true ↔
        (mn.getD 0 ≤ count ∧ ∀ M, mx = some M → count ≤ M)) ∧
      check_match_count 0 (some 2) (some 5) = false ∧
      check_match_count 2 (some 2) (some 5) = true ∧
      check_match_count 5 (some 2) (some 5) = true ∧
      check_match_count 6 (some 2) (some 5) = false := by
  refine ⟨?_, by decide, by decide, by decide, by decide⟩
  cases mx <;> simp [check_match_count]

/-- Witness for claim C1 at min=2, max=5, count=2. -/
theorem check_match_count_iff_witness :
    is_checkable (some 2) (some 5) = true ∧
      (check_match_count 2 (some 2) (some 5) = true ↔
        ((some 2 : Option Nat).getD 0 ≤ 2 ∧
          ∀ M, (some 5 : Option Nat) = some M → 2 ≤ M)) :=
  ⟨by decide, (check_match_count_iff 2 (some 2) (some 5) (by decide)).1⟩

/-- Claim C6: a check with both thresholds absent (non-enforceable) always
evaluates to pass = true, whatever its match count — the verdict and the
`passed` field of every produced Check record are `true`. -/
theorem non_enforceable_always_passes (c : CheckSpec) (records : List SearchRecord)
    (hmn : c.min = none) (hmx : c.max = none) :
    (processCheck c records).2.1 = true ∧
      ∀ s ∈ (processCheck c records).1, ∀ chk, s.check = some chk →
        chk.passed = true := by
  have hic : is_checkable c.min c.max = false := by rw [hmn, hmx]; rfl
  constructor
  · simp [processCheck, hic]
  · intro s hs chk hchk
    simp only [processCheck, hic, Bool.false_eq_true, if_false] at hs
    obtain ⟨p, hp, rfl⟩ := List.mem_map.mp hs
    cases hchk
    rfl

/-- Witness for claim C6: the informational check `c6ex` on the stream
`rs7` (three matches) evaluates to pass. -/
theorem non_enforceable_always_passes_witness :
    (processCheck c6ex rs7).2.1 = true :=
  (non_enforceable_always_passes c6ex rs7 rfl rfl).1

/-! ## Theorems: MatchOrganizer (claim C7) -/

/-- Membership in the organized mapping: an entry is exactly a
first-occurrence filename paired with the subsequence of matches carrying
that filename. -/
theorem mem_organize_iff (ms : List RawMatch) (p : String × List RawMatch) :
    p ∈ organize_matches ms ↔
      p.1 ∈ fileOrder ms ∧ p.2 = ms.filter (fun m => m.filename = p.1) := by
  unfold organize_matches
  rw [List.mem_map]
  constructor
  · rintro ⟨f, hf, rfl⟩
    exact ⟨hf, rfl⟩
  · obtain ⟨a, b⟩ := p
    rintro ⟨h1, h2⟩
    exact ⟨a, h1, by rw [← h2]⟩

/-- Claim C7: for every input stream of raw matches and sentinel records,
the organizer assigns no match to more than one file (a match belonging to
two entries forces the entries to be equal), places no two matches from
different files in one group (every match of an entry carries the entry's
filename), and each group is the filter of the input stream by that
filename — a sublist, so each file's relative match order is preserved. -/
theorem organize_matches_partition (rs : List SearchRecord)
    (p q : String × List RawMatch) (m : RawMatch)
    (hp : p ∈ organize_matches (filter_matches rs))
    (hq : q ∈ organize_matches (filter_matches rs)) :
    (m ∈ p.2 → m.filename = p.1) ∧
      (m ∈ p.2 → m ∈ q.2 → p = q) ∧
      p.2 = (filter_matches rs).filter (fun x => x.filename = p.1) ∧
      p.2.Sublist (filter_matches rs) := by
  have Hp := (mem_organize_iff (filter_matches rs) p).1 hp
  have Hq := (mem_organize_iff (filter_matches rs) q).1 hq
  have keyp : ∀ x ∈ p.2, x.filename = p.1 := by
    intro x hx
    rw [Hp.2] at hx
    simpa using (List.mem_filter.mp hx).2
  have keyq : ∀ x ∈ q.2, x.filename = q.1 := by
    intro x hx
    rw [Hq.2] at hx
    simpa using (List.mem_filter.mp hx).2
  refine ⟨keyp m, ?_, Hp.2, ?_⟩
  · intro hmp hmq
    have hfst : p.1 = q.1 := (keyp m hmp).symm.trans (keyq m hmq)
    obtain ⟨a, b⟩ := p
    obtain ⟨c, d⟩ := q
    simp only at hfst
    subst hfst
    have hbd : b = d := Hp.2.trans Hq.2.symm
    rw [hbd]
  · rw [Hp.2]
    exact List.filter_sublist _

/-- Witness for claim C7 on an interleaved two-file stream. -/
theorem organize_matches_partition_witness :
    mA1.filename = "a.py" ∧
      ([mA1, mA2] : List RawMatch) =
        (filter_matches rs7).filter (fun x => x.filename = "a.py") := by
  have h := organize_matches_partition rs7 ("a.py", [mA1, mA2]) ("b.py", [mB1])
    mA1 (by decide) (by decide)
  exact ⟨h.1 (by decide), h.2.2.1⟩

/-! ## Aggregation lemmas: the per-file group sizes sum to the total count -/

/-- Inserting a filename keeps the existing keys. -/
theorem insertName_sub (acc : List String) (f : String) : acc ⊆ insertName acc f := by
  unfold insertName
  split
  · exact fun x hx => hx
  · exact fun x hx => List.mem_append_left _ hx

/-- Inserting a filename makes it a key. -/
theorem mem_insertName (acc : List String) (f : String) : f ∈ insertName acc f := by
  unfold insertName
  split
  · assumption
  · exact List.mem_append_right _ (List.mem_singleton.mpr rfl)

/-- Inserting a filename preserves distinctness of the keys. -/
theorem insertName_nodup (acc : List String) (f : String) (h : acc.Nodup) :
    (insertName acc f).Nodup := by
  unfold insertName
  split
  · exact h
  · rename_i hf
    rw [List.nodup_append]
    exact ⟨h, List.nodup_singleton f, fun x hx hx' =>
      hf ((List.mem_singleton.mp hx') ▸ hx)⟩

/-- Keys already accumulated survive folding further matches. -/
theorem foldl_insert_sub (ms : List RawMatch) (acc : List String) :
    acc ⊆ ms.foldl (fun a x => insertName a x.filename) acc := by
  induction ms generalizing acc with
  | nil => exact fun x hx => hx
  | cons m rest ih =>
    exact fun x hx => ih (insertName acc m.filename) (insertName_sub acc m.filename hx)

/-- Every match's filename occurs among the accumulated keys. -/
theorem foldl_insert_covers (ms : List RawMatch) (acc : List String) :
    ∀ m ∈ ms, m.filename ∈ ms.foldl (fun a x => insertName a x.filename) acc := by
  induction ms generalizing acc with
  | nil => intro m hm; cases hm
  | cons x rest ih =>
    intro m hm
    rcases List.mem_cons.mp hm with h | h
    · subst h
      exact foldl_insert_sub rest _ (mem_insertName acc m.filename)
    · exact ih _ m h

/-- Folding matches preserves distinctness of the keys. -/
theorem foldl_insert_nodup (ms : List RawMatch) (acc : List String) (h : acc.Nodup) :
    (ms.foldl (fun a x => insertName a x.filename) acc).Nodup := by
  induction ms generalizing acc with
  | nil => exact h
  | cons x rest ih => exact ih _ (insertName_nodup _ _ h)

/-- The key order of the grouping dictionary has no duplicate filenames. -/
theorem fileOrder_nodup (ms : List RawMatch) : (fileOrder ms).Nodup :=
  foldl_insert_nodup ms [] List.nodup_nil

/-- Every match's filename is a key of the grouping dictionary. -/
theorem fileOrder_covers (ms : List RawMatch) :
    ∀ m ∈ ms, m.filename ∈ fileOrder ms :=
  foldl_insert_covers ms []

/-- Summing the indicator of one name over a duplicate-free name list that
contains it gives one. -/
theorem sum_if_zero (names : List String) (a : String) (ha : a ∉ names) :
    (names.map (fun f => if a = f then 1 else 0)).sum = 0 := by
  induction names with
  | nil => rfl
  | cons f rest ih =>
    simp only [List.mem_cons, not_or] at ha
    simp [List.map_cons, List.sum_cons, if_neg ha.1, ih ha.2]

/-- Summing the indicator of a member of a duplicate-free name list gives
exactly one. -/
theorem sum_indicator (names : List String) (a : String) (hnd : names.Nodup)
    (ha : a ∈ names) :
    (names.map (fun f => if a = f then 1 else 0)).sum = 1 := by
  induction names with
  | nil => cases ha
  | cons f rest ih =>
    rcases List.mem_cons.mp ha with h | h
    · subst h
      have hnotin : a ∉ rest := (List.nodup_cons.mp hnd).1
      simp [sum_if_zero rest a hnotin]
    · have hne : a ≠ f := fun hh => (List.nodup_cons.mp hnd).1 (hh ▸ h)
      simp [if_neg hne, ih (List.nodup_cons.mp hnd).2 h]

/-- For any duplicate-free name list covering all filenames of a match list,
the per-name filter lengths sum to the total number of matches. -/
theorem sum_filter_lengths (names : List String) (ms : List RawMatch)
    (hnd : names.Nodup) (hcov : ∀ m ∈ ms, m.filename ∈ names) :
    (names.map (fun f => (ms.filter (fun x => x.filename = f)).length)).sum
      = ms.length := by
  induction ms with
  | nil => simp
  | cons m rest ih =>
    have hrest := ih (fun x hx => hcov x (List.mem_cons_of_mem m hx))
    have hmap :
        names.map (fun f => ((m :: rest).filter (fun x => x.filename = f)).length)
          = names.map (fun f =>
              (if m.filename = f then 1 else 0)
                + (rest.filter (fun x => x.filename = f)).length) := by
      apply List.map_congr_left
      intro f _
      by_cases h : m.filename = f
      · simp [List.filter_cons, h, Nat.add_comm]
      · simp [List.filter_cons, h]
    rw [hmap, List.sum_map_add,
      sum_indicator names m.filename hnd (hcov m (List.mem_cons_self m rest)), hrest]
    simp [Nat.add_comm]

/-- The per-file group sizes of the organized mapping sum to the total
number of matches: the global match count aggregates all files' matches. -/
theorem organize_matches_total_count (ms : List RawMatch) :
    ((organize_matches ms).map (fun p => p.2.length)).sum = ms.length := by
  unfold organize_matches
  rw [List.map_map]
  exact sum_filter_lengths (fileOrder ms) ms (fileOrder_nodup ms) (fileOrder_covers ms)

/-! ## Theorems: global threshold evaluation fans out (claim C2) -/

/-- Claim C2: for every check, pass/fail is computed once from the total
match count aggregated across all files the pattern matched (the per-file
group sizes sum to that total), and every per-file Check record created
for the check carries that single verdict in its `passed` field. -/
theorem processCheck_global_verdict (c : CheckSpec) (records : List SearchRecord)
    (s : Source) (hs : s ∈ (processCheck c records).1) :
    (((organize_matches (filter_matches records)).map (fun p => p.2.length)).sum
        = (filter_matches records).length) ∧
      ∃ chk, s.check = some chk ∧
        chk.passed = (if is_checkable c.min c.max then
          check_match_count (filter_matches records).length c.min c.max
        else true) := by
  refine ⟨organize_matches_total_count _, ?_⟩
  simp only [processCheck] at hs
  obtain ⟨p, hp, rfl⟩ := List.mem_map.mp hs
  exact ⟨_, rfl, rfl⟩

/-- Witness for claim C2: the source recorded for `a.py` by the enforceable
check `c2ex` on the stream `rs7`. -/
theorem processCheck_global_verdict_witness :
    (((organize_matches (filter_matches rs7)).map (fun p => p.2.length)).sum
        = (filter_matches rs7).length) ∧
      ∃ chk, sC2.check = some chk ∧
        chk.passed = (if is_checkable c2ex.min c2ex.max then
          check_match_count (filter_matches rs7).length c2ex.min c2ex.max
        else true) :=
  processCheck_global_verdict c2ex rs7 sC2 (by decide)

/-! ## Theorems: match line and context window (claim C3) -/

/-- Claim C3 counterexample: a raw match at 1-based line 10 of a 20-line
file whose line 10 starts with a tab.  The produced `linematch` is not the
line with leading whitespace stripped (only space characters are removed,
the tab survives), and `linematch_context` is not lines 8 through 12: the
code slices `file_lines[max(0, 10-2) : 10+2]`, which is the 1-based lines
9 through 12. -/
theorem buildMatch_window_counterexample :
    (buildMatch c3match).linematch ≠ "x = 10" ∧
      (buildMatch c3match).linematch_context ≠
        String.intercalate "\n" ["line8", "line9", "\tx = 10", "line11", "line12"] ∧
      (buildMatch c3match).linematch = "\tx = 10" ∧
      (buildMatch c3match).linematch_context =
        String.intercalate "\n" ["line9", "\tx = 10", "line11", "line12"] := by
  refine ⟨by decide, by decide, by decide, by decide⟩

/-- Claim C3 amended: for every raw match at an in-range 1-based line L, the
produced Match keeps the raw line number and column offset, its
`linematch` is line L's text with leading space characters stripped, and
its `linematch_context` is 1-based lines max(1, L-1) through L+2 — the
first `L + Code_Context` lines with the first `max(0, L - Code_Context)`
discarded — joined by newlines, clamped at the start and end of the
file. -/
theorem buildMatch_fields (m : RawMatch) (h1 : 1 ≤ m.position.lineno)
    (h2 : m.position.lineno ≤ m.file_lines.length) :
    (buildMatch m).lineno = m.position.lineno ∧
      (buildMatch m).coloffset = m.position.col_offset ∧
      (buildMatch m).linematch =
        lstrip (m.file_lines.get ⟨m.position.lineno - 1, by omega⟩) Space ∧
      (buildMatch m).linematch_context =
        String.intercalate "\n"
          ((m.file_lines.take (m.position.lineno + Code_Context)).drop
            (m.position.lineno - Code_Context)) := by
  refine ⟨rfl, rfl, ?_, ?_⟩
  · have hidx : m.position.lineno - 1 < m.file_lines.length := by omega
    simp only [buildMatch, List.getD_eq_getElem?_getD, List.getElem?_eq_getElem hidx,
      Option.getD_some, List.get_eq_getElem]
  · simp only [buildMatch, join_and_preserve, Newline, List.drop_take]

/-- Witness for amended claim C3 at the match `mA2` (line 2 of a 2-line
file): the window is the whole file. -/
theorem buildMatch_fields_witness :
    (buildMatch mA2).linematch_context =
      String.intercalate "\n" ((mA2.file_lines.take 4).drop 0) :=
  (buildMatch_fields mA2 (by decide) (by decide)).2.2.2

/-! ## Theorems: zero-match placeholder (claim C4) -/

/-- Claim C4 (code defect): a check whose pattern yields zero raw matches
appends no Source entry at all.  The placeholder Source constructed at
main.py lines 533-539 (with `check = None`) is never added to the document:
the only append into `chasten_results_save.sources` (line 614) sits inside
the per-file loop, whose body never runs when the match dictionary is
empty.  Evaluated here on a stream holding only a sentinel record, both
for one check and for a whole run. -/
theorem zero_match_check_appends_no_source :
    (processCheck c4ex [SearchRecord.marker "done"]).1 = [] ∧
      (analyzeRun [c4ex] (fun _ => [SearchRecord.marker "done"])).1 = [] :=
  ⟨rfl, rfl⟩

/-! ## Theorems: run-level accumulator and summary (claim C5) -/

/-- The status accumulator of a run lists the verdicts of exactly the
enforceable checks, in order: non-enforceable checks append nothing
(main.py lines 497-507). -/
theorem analyzeRun_status_list (cs : List CheckSpec)
    (query : CheckSpec → List SearchRecord) :
    (analyzeRun cs query).2 =
      (cs.filter (fun c => is_checkable c.min c.max)).map
        (fun c => check_match_count (filter_matches (query c)).length c.min c.max) := by
  induction cs with
  | nil => rfl
  | cons c rest ih =>
    by_cases h : is_checkable c.min c.max
    · simp [analyzeRun, processCheck, h, List.filter_cons, ih]
    · simp [analyzeRun, processCheck, h, List.filter_cons, ih]

/-- Claim C5 counterexample: a run evaluating one configured check that is
non-enforceable accumulates nothing, so the reported `total_count` is 0,
not the number of configured checks evaluated (1). -/
theorem analyzeRun_total_count_counterexample :
    (analyzeRun [c6ex] (fun _ => [])).2 = [] ∧
      (total_amount_passed (analyzeRun [c6ex] (fun _ => [])).2).2.1 = 0 ∧
      [c6ex].length = 1 ∧
      (total_amount_passed (analyzeRun [c6ex] (fun _ => [])).2).2.1 ≠ [c6ex].length :=
  ⟨rfl, rfl, rfl, by decide⟩

/-- Claim C5 amended: every *enforceable* check's pass/fail outcome is
accumulated into the run-level status list, and the run summary
(`passed_count`, `total_count`, `passed_percentage`) is derived from that
accumulator, so `total_count` equals the number of enforceable checks
evaluated (non-enforceable checks are evaluated but not accumulated). -/
theorem analyzeRun_summary (cs : List CheckSpec)
    (query : CheckSpec → List SearchRecord) :
    (analyzeRun cs query).2 =
        (cs.filter (fun c => is_checkable c.min c.max)).map
          (fun c => check_match_count (filter_matches (query c)).length c.min c.max) ∧
      (total_amount_passed (analyzeRun cs query).2).2.1 =
        (cs.filter (fun c => is_checkable c.min c.max)).length := by
  refine ⟨analyzeRun_status_list cs query, ?_⟩
  have hlen : (total_amount_passed (analyzeRun cs query).2).2.1
      = (analyzeRun cs query).2.length := rfl
  rw [hlen, analyzeRun_status_list cs query, List.length_map]

/-! ## Theorems: merging results documents (claim C8) -/

/-- Folding source-list concatenation over a batch appends, in order, every
document's sources after the accumulator's. -/
theorem combine_foldl_sources (rest : List ChastenDoc) (acc : ChastenDoc) :
    (rest.foldl (fun a x => { a with sources := a.sources ++ x.sources }) acc).sources
      = acc.sources ++ (rest.map (fun d => d.sources)).flatten := by
  induction rest generalizing acc with
  | nil => simp
  | cons d ds ih => simp [ih, List.append_assoc]

/-- Claim C8: merging a sequence of results documents yields one combined
document whose Source list is exactly the concatenation of the inputs'
Source lists in input order, with no deduplication; the combined Source
list length is the sum of the inputs' Source list lengths, and for two
documents the order is the first document's sources followed by the
second's. -/
theorem combine_dicts_concat (docs : List ChastenDoc) :
    (combine_dicts docs).sources = (docs.map (fun d => d.sources)).flatten ∧
      (combine_dicts docs).sources.length =
        (docs.map (fun d => d.sources.length)).sum ∧
      ∀ a b : ChastenDoc, (combine_dicts [a, b]).sources = a.sources ++ b.sources := by
  have hconcat : ∀ ds : List ChastenDoc,
      (combine_dicts ds).sources = (ds.map (fun d => d.sources)).flatten := by
    intro ds
    cases ds with
    | nil => rfl
    | cons d rest => simp [combine_dicts, combine_foldl_sources]
  refine ⟨hconcat docs, ?_, ?_⟩
  · rw [hconcat docs, List.length_flatten, List.map_map]
    rfl
  · intro a b
    simp [hconcat [a, b]]

end Chasten
